import Mathlib

/-
Verification of the submission-admission gate of gasoradar3
(`app/services/protection_service.py` together with the relevant
configuration values of `app/config.py`).

The embedding is shallow: Python floats are modelled as exact rationals,
timestamps as rationals (seconds), the persistence collaborator as a list
of rows, the external attestation HTTP exchange as an explicit outcome
value, and the mutable per-identity windows as explicit state passing.
-/

set_option maxHeartbeats 1000000

namespace Gasoradar

/-- Configuration values of `Settings` in `app/config.py` that the
protection service reads. -/
structure Config where
  price_reports_per_hour : Nat
  reviews_per_day : Nat
  price_tolerance_percent : ℚ
  min_samples_for_validation : Nat
  price_data_freshness_days : ℚ
  fallback_price_ranges : List (String × ℚ × ℚ)
  recaptcha_secret_key : String

/-- The default `Settings` instance of `app/config.py`. -/
def defaultSettings : Config :=
  { price_reports_per_hour := 3
    reviews_per_day := 2
    price_tolerance_percent := 15
    min_samples_for_validation := 5
    price_data_freshness_days := 30
    fallback_price_ranges :=
      [("magna", 15, 35), ("premium", 18, 40), ("diesel", 16, 38)]
    recaptcha_secret_key := "" }

/-- ASCII lowercasing of one character: the embedding of Python
`str.lower` on the code points the repository uses as fuel-type keys. -/
def lowerChar (c : Char) : Char :=
  if 65 ≤ c.toNat ∧ c.toNat ≤ 90 then Char.ofNat (c.toNat + 32) else c

/-- Lowercasing of a string, the embedding of Python `str.lower()`. -/
def lowerStr (s : String) : String := ⟨s.data.map lowerChar⟩

/-- Containment of one character list in another. -/
def containsSub (pat : List Char) : List Char → Bool
  | [] => pat.isEmpty
  | c :: rest => pat.isPrefixOf (c :: rest) || containsSub pat rest

/-- Case-insensitive containment: the embedding of the SQL
`state ILIKE '%region%'` filter of the region branch. -/
def ilikeContains (haystack pat : String) : Bool :=
  containsSub (lowerStr pat).data (lowerStr haystack).data

/-- One row reachable by the price query: a `GasPrice` row joined with its
station's `state` column. -/
structure GasPriceRow where
  fuel_type : String
  price : ℚ
  created_at : ℚ
  is_current : Bool
  validation_status : String
  station_state : String

/-- The query of `validate_price_dynamically` (lines 141-157): validated,
current, fresh prices of the lowercased fuel type, optionally restricted
to stations whose state contains the region (case-insensitively). -/
def queryPrices (db : List GasPriceRow) (fuel_type : String) (cutoff : ℚ)
    (region : Option String) : List ℚ :=
  (db.filter (fun r =>
    r.fuel_type == lowerStr fuel_type
      && decide (cutoff ≤ r.created_at)
      && r.is_current
      && r.validation_status == "validated"
      && (match region with
          | none => true
          | some reg => ilikeContains r.station_state reg))).map (·.price)

/-- Rounding to two decimals (Python `round(x, 2)`; the tie-breaking rule
differs from float banker's rounding only on exact half-cent ties, which
no claim touches). -/
def round2 (q : ℚ) : ℚ := ((round (q * 100) : ℤ) : ℚ) / 100

/-- Fixed two-decimal rendering of a rational, the embedding of the
`:.2f` format used in rejection messages. -/
def fmt2 (q : ℚ) : String :=
  let cents : Int := round (q * 100)
  let sign := if cents < 0 then "-" else ""
  let a := cents.natAbs
  sign ++ toString (a / 100) ++ "." ++
    (if a % 100 < 10 then "0" else "") ++ toString (a % 100)

/-- Rendering of a configuration number as Python `str(float)` does for
the values the fallback message interpolates. -/
def fmtF (q : ℚ) : String :=
  if q.den = 1 then toString q.num ++ ".0" else fmt2 q

/-- One value of the diagnostics dictionary. -/
inductive DiagVal where
  | num (q : ℚ)
  | flag (b : Bool)
  | range (lo hi : ℚ)
deriving DecidableEq

/-- The diagnostics dictionary (`validation_info`) as an association
list, mirroring the Python dict literals. -/
def Diag := List (String × DiagVal)

/-- Lookup of a diagnostics key. -/
def diagGet (d : List (String × DiagVal)) (k : String) : Option DiagVal :=
  (d.find? (fun p => p.1 == k)).map (·.2)

/-- Lookup in the fallback range table (`self.fallback_ranges.get`). -/
def lookupRange (ranges : List (String × ℚ × ℚ)) (k : String) :
    Option (ℚ × ℚ) :=
  (ranges.find? (fun p => p.1 == k)).map (·.2)

/-- `ProtectionService._validate_with_fallback` (lines 193-215). -/
def validate_with_fallback (cfg : Config) (fuel_type : String)
    (reported_price : ℚ) : Bool × String × List (String × DiagVal) :=
  match lookupRange cfg.fallback_price_ranges (lowerStr fuel_type) with
  | none => (true, "No hay límites definidos para este combustible", [])
  | some (min_price, max_price) =>
    let is_valid := decide (min_price ≤ reported_price) &&
                    decide (reported_price ≤ max_price)
    let validation_info : List (String × DiagVal) :=
      [("fallback_mode", .flag true),
       ("valid_range", .range min_price max_price),
       ("reported_price", .num reported_price)]
    if is_valid then
      (true, "Precio válido (modo fallback)", validation_info)
    else
      (false, "Precio fuera del rango fallback ($" ++ fmtF min_price ++
         " - $" ++ fmtF max_price ++ ")", validation_info)

/-- `ProtectionService.validate_price_dynamically` (lines 127-191).
`now` is the current time in seconds; the freshness cutoff is
`now - freshness_days` days.  A `mean` of an empty sample list raises
`StatisticsError` in Python, which the enclosing `except` turns into the
fallback path; the `prices = []` guard models that. -/
def validate_price_dynamically (cfg : Config) (db : List GasPriceRow)
    (now : ℚ) (fuel_type : String) (reported_price : ℚ)
    (region : Option String) : Bool × String × List (String × DiagVal) :=
  let cutoff := now - cfg.price_data_freshness_days * 86400
  let prices := queryPrices db fuel_type cutoff region
  if prices.length < cfg.min_samples_for_validation then
    validate_with_fallback cfg fuel_type reported_price
  else if prices = [] then
    validate_with_fallback cfg fuel_type reported_price
  else
    let market_avg := prices.sum / (prices.length : ℚ)
    let tolerance := cfg.price_tolerance_percent / 100
    let min_valid := market_avg * (1 - tolerance)
    let max_valid := market_avg * (1 + tolerance)
    let is_valid := decide (min_valid ≤ reported_price) &&
                    decide (reported_price ≤ max_valid)
    let validation_info : List (String × DiagVal) :=
      [("market_average", .num (round2 market_avg)),
       ("tolerance_percent", .num (tolerance * 100)),
       ("valid_range", .range (round2 min_valid) (round2 max_valid)),
       ("samples_count", .num (prices.length : ℚ)),
       ("reported_price", .num reported_price)]
    if is_valid then
      (true, "Precio dentro del rango de mercado", validation_info)
    else
      (false, "Precio fuera del rango válido ($" ++ fmt2 min_valid ++
         " - $" ++ fmt2 max_valid ++ ")", validation_info)

/-- Rejection message of a rate limiter (`Límite excedido: count/limit …`). -/
def limitMsg (count limit : Nat) (label : String) : String :=
  "Límite excedido: " ++ toString count ++ "/" ++ toString limit ++ " " ++ label

/-- The `while … popleft()` pruning loop: drop timestamps below the
cutoff from the front of the window. -/
def pruneWindow (cutoff : ℚ) : List ℚ → List ℚ
  | [] => []
  | t :: ts => if t < cutoff then pruneWindow cutoff ts else t :: ts

/-- The shared body of `check_price_report_rate_limit` and
`check_review_rate_limit` (lines 87-125): prune the window, reject when
the remaining count reaches the limit, otherwise record `now`.  Returns
(allowed, message, new window). -/
def checkAndRecord (limit : Nat) (windowDur : ℚ) (label : String)
    (now : ℚ) (window : List ℚ) : Bool × String × List ℚ :=
  let w := pruneWindow (now - windowDur) window
  let current_count := w.length
  if limit ≤ current_count then
    (false, limitMsg current_count limit label, w)
  else
    (true, "Rate limit OK", w ++ [now])

/-- The in-memory per-identity windows of `ProtectionService`
(`_price_reports` and `_reviews`). -/
structure ProtState where
  price_reports : String → List ℚ
  reviews : String → List ℚ

/-- `ProtectionService.check_price_report_rate_limit` (lines 87-105):
3 reports per rolling hour per identity. -/
def check_price_report_rate_limit (cfg : Config) (now : ℚ)
    (st : ProtState) (ip : String) : Bool × String × ProtState :=
  let r := checkAndRecord cfg.price_reports_per_hour 3600
    "reportes por hora" now (st.price_reports ip)
  (r.1, r.2.1,
    { st with price_reports := fun j => if j = ip then r.2.2 else st.price_reports j })

/-- `ProtectionService.check_review_rate_limit` (lines 107-125):
2 reviews per rolling day per identity. -/
def check_review_rate_limit (cfg : Config) (now : ℚ)
    (st : ProtState) (ip : String) : Bool × String × ProtState :=
  let r := checkAndRecord cfg.reviews_per_day 86400
    "reseñas por día" now (st.reviews ip)
  (r.1, r.2.1,
    { st with reviews := fun j => if j = ip then r.2.2 else st.reviews j })

/-- Outcome of the outbound attestation HTTP exchange: either a
transport error / exception, or a response with its HTTP status and the
parsed `success` flag and optional `score`. -/
inductive NetResult where
  | err
  | resp (status : Nat) (success : Bool) (score : Option ℚ)

/-- Python `if not token` on `form_data.get("g-recaptcha-response")`:
true when the field is absent or the empty string. -/
def tokenMissing : Option String → Bool
  | none => true
  | some t => t == ""

/-- `ProtectionService.verify_recaptcha` (lines 40-85).  The third
component records whether the external attestation service was
contacted (true exactly on the branches that await the HTTP call). -/
def verify_recaptcha (secret : String) (token : Option String)
    (net : NetResult) : Bool × String × Bool :=
  if tokenMissing token then (false, "Token CAPTCHA requerido", false)
  else if secret == "" then (true, "Bypassed in development", false)
  else
    match net with
    | .err => (false, "Error verificando CAPTCHA", true)
    | .resp status success score =>
      if status == 200 then
        if success then
          match score with
          | some s =>
            if s < 1/2 then (false, "Score CAPTCHA muy bajo", true)
            else (true, "CAPTCHA verificado", true)
          | none => (true, "CAPTCHA verificado", true)
        else (false, "CAPTCHA inválido", true)
      else (false, "Error verificando CAPTCHA", true)

/-- The value held by the `reported_price` form field as seen by
`float(form_data.get("reported_price", 0))`: absent (defaults to `0`,
converting to `0.0`), present but not convertible (raising
`ValueError`/`TypeError`), or convertible to the number `q`. -/
inductive FormNum where
  | missing
  | invalid
  | value (q : ℚ)
deriving DecidableEq

/-- Result of the `float(...)` conversion inside the `try`: `none` means
the exception branch. -/
def parsePrice : FormNum → Option ℚ
  | .missing => some 0
  | .invalid => none
  | .value q => some q

/-- The form fields of a price-report submission that
`validate_price_report` reads. -/
structure PriceForm where
  g_recaptcha_response : Option String
  fuel_type : Option String
  reported_price : FormNum

/-- `ProtectionService.validate_price_report` (lines 217-246): CAPTCHA
gate, then rate-limit gate, then dynamic price validation, fail-fast,
each rejection reason prefixed with its stage label. -/
def validate_price_report (cfg : Config) (db : List GasPriceRow)
    (now : ℚ) (net : NetResult) (form : PriceForm) (request_ip : String)
    (st : ProtState) : (Bool × String) × ProtState :=
  let c := verify_recaptcha cfg.recaptcha_secret_key form.g_recaptcha_response net
  if !c.1 then ((false, "CAPTCHA: " ++ c.2.1), st)
  else
    let r := check_price_report_rate_limit cfg now st request_ip
    if !r.1 then ((false, "Rate limit: " ++ r.2.1), r.2.2)
    else
      let fuel_type := form.fuel_type.getD ""
      match parsePrice form.reported_price with
      | none => ((false, "Precio inválido"), r.2.2)
      | some price =>
        let p := validate_price_dynamically cfg db now fuel_type price none
        if !p.1 then ((false, "Precio: " ++ p.2.1), r.2.2)
        else ((true, "Todas las validaciones pasaron"), r.2.2)

/-- The rating form value as seen by `int(form_data.get("rating"))`:
`none` when the conversion raises (absent field or unparsable),
`some n` when it converts to the integer `n`. -/
def RatingVal := Option ℤ

/-- The form fields of a review submission that `validate_review`
reads. -/
structure ReviewForm where
  g_recaptcha_response : Option String
  name : String
  comment : String
  rating : Option ℤ

/-- `ProtectionService.validate_review` (lines 248-284): CAPTCHA gate,
rate-limit gate, then content checks (name/comment length after
stripping, rating in 1..5), fail-fast. -/
def validate_review (cfg : Config) (now : ℚ) (net : NetResult)
    (form : ReviewForm) (request_ip : String) (st : ProtState) :
    (Bool × String) × ProtState :=
  let c := verify_recaptcha cfg.recaptcha_secret_key form.g_recaptcha_response net
  if !c.1 then ((false, "CAPTCHA: " ++ c.2.1), st)
  else
    let r := check_review_rate_limit cfg now st request_ip
    if !r.1 then ((false, "Rate limit: " ++ r.2.1), r.2.2)
    else
      if form.name.trim.length < 2 then
        ((false, "Nombre muy corto (mínimo 2 caracteres)"), r.2.2)
      else if form.comment.trim.length < 10 then
        ((false, "Comentario muy corto (mínimo 10 caracteres)"), r.2.2)
      else
        match form.rating with
        | none => ((false, "Calificación inválida"), r.2.2)
        | some n =>
          if ¬(1 ≤ n ∧ n ≤ 5) then
            ((false, "Calificación debe estar entre 1 y 5"), r.2.2)
          else ((true, "Todas las validaciones pasaron"), r.2.2)

/-- Five fresh validated current magna samples at price 10 (the market
example of spec §8). -/
def dbMagna5 : List GasPriceRow :=
  [⟨"magna", 10, 0, true, "validated", "Jalisco"⟩,
   ⟨"magna", 10, 0, true, "validated", "Jalisco"⟩,
   ⟨"magna", 10, 0, true, "validated", "Jalisco"⟩,
   ⟨"magna", 10, 0, true, "validated", "Jalisco"⟩,
   ⟨"magna", 10, 0, true, "validated", "Jalisco"⟩]

/-- Three fresh validated current magna samples with assorted prices
(the fallback example of spec §8). -/
def dbMagna3 (p1 p2 p3 : ℚ) : List GasPriceRow :=
  [⟨"magna", p1, 0, true, "validated", "Jalisco"⟩,
   ⟨"magna", p2, 0, true, "validated", "Jalisco"⟩,
   ⟨"magna", p3, 0, true, "validated", "Jalisco"⟩]

/-- A protection-service state with empty windows for every identity. -/
def emptyState : ProtState := ⟨fun _ => [], fun _ => []⟩

/-- A sequence of rate-limit checks of one category against one
identity's window, returning the (allowed, message) results in order and
the final window. -/
def runChecks (limit : Nat) (W : ℚ) (label : String) :
    List ℚ → List ℚ → List (Bool × String) × List ℚ
  | [], window => ([], window)
  | t :: ts, window =>
    let r := checkAndRecord limit W label t window
    let rest := runChecks limit W label ts r.2.2
    ((r.1, r.2.1) :: rest.1, rest.2)

/-- A price-report form with no attestation token. -/
def formNoToken : PriceForm := ⟨none, some "magna", .value 20⟩

/-- A price-report form with a non-empty token and the given
reported-price field value. -/
def formTok (p : FormNum) : PriceForm := ⟨some "tok", some "magna", p⟩

/-- A state whose price-report window for "1.2.3.4" already holds three
fresh timestamps. -/
def fullState : ProtState := ⟨fun _ => [0, 0, 0], fun _ => []⟩

/-- A review form with no attestation token and otherwise valid
fields. -/
def reviewNoToken : ReviewForm := ⟨none, "Ana", "excellent gas station", some 5⟩

/-- `Char.ofNat` of a scalar value below the surrogate range keeps the
value. -/
theorem char_toNat_ofNat (n : Nat) (h : n < 55296) : (Char.ofNat n).toNat = n := by
  simp [Char.ofNat, Char.toNat, Nat.isValidChar, h, Char.ofNatAux, UInt32.toNat,
    UInt32.ofNatCore, BitVec.toNat_ofNatLt]

/-- Lowercasing a character twice is the same as once. -/
theorem lowerChar_idem (c : Char) : lowerChar (lowerChar c) = lowerChar c := by
  unfold lowerChar
  by_cases h : 65 ≤ c.toNat ∧ c.toNat ≤ 90
  · have h32 := char_toNat_ofNat (c.toNat + 32) (by omega)
    rw [if_pos h, if_neg (by rw [h32]; omega)]
  · simp only [if_neg h]

/-- Lowercasing a string twice is the same as once. -/
theorem lowerStr_idem (s : String) : lowerStr (lowerStr s) = lowerStr s := by
  unfold lowerStr
  simp only [List.map_map]
  congr 1
  exact List.map_congr_left fun a _ => lowerChar_idem a

/-- Pruning removes nothing from a window whose entries all lie at or
above the cutoff. -/
theorem pruneWindow_eq_self (cutoff : ℚ) (w : List ℚ)
    (h : ∀ x ∈ w, cutoff ≤ x) : pruneWindow cutoff w = w := by
  cases w with
  | nil => rfl
  | cons t ts =>
    unfold pruneWindow
    rw [if_neg (not_lt.mpr (h t (List.mem_cons_self t ts)))]

/-- Every call of a run below the limit is allowed and appends its
timestamp, provided all timestamps in window and calls are fresh
relative to the reference time `tf`. -/
theorem runChecks_all_ok (limit : Nat) (W : ℚ) (label : String) (tf : ℚ) :
    ∀ (ts w : List ℚ), w.length + ts.length ≤ limit →
      (∀ x ∈ w, tf - W ≤ x) → (∀ t ∈ ts, tf - W ≤ t ∧ t ≤ tf) →
      runChecks limit W label ts w =
        (ts.map (fun _ => (true, "Rate limit OK")), w ++ ts)
  | [], w, _, _, _ => by simp [runChecks]
  | t :: ts, w, hlen, hw, hts => by
    have ht := hts t (List.mem_cons_self t ts)
    have hw' : ∀ x ∈ w, t - W ≤ x := fun x hx => le_trans (by linarith [ht.2]) (hw x hx)
    have hcnt : ¬ limit ≤ w.length := by
      simp only [List.length_cons] at hlen; omega
    have hrec := runChecks_all_ok limit W label tf ts (w ++ [t])
      (by simp only [List.length_append, List.length_cons, List.length_nil] at hlen ⊢; omega)
      (by intro x hx
          rcases List.mem_append.mp hx with h1 | h1
          · exact hw x h1
          · simp only [List.mem_singleton] at h1; subst h1; exact ht.1)
      (fun x hx => hts x (List.mem_cons_of_mem t hx))
    unfold runChecks checkAndRecord
    rw [pruneWindow_eq_self _ _ hw']
    simp only [if_neg hcnt, hrec, List.map_cons, List.append_assoc, List.singleton_append]

/-- Running an appended list of calls runs the two parts in sequence. -/
theorem runChecks_append (limit : Nat) (W : ℚ) (label : String)
    (ts1 ts2 w : List ℚ) :
    runChecks limit W label (ts1 ++ ts2) w =
      ((runChecks limit W label ts1 w).1 ++
        (runChecks limit W label ts2 (runChecks limit W label ts1 w).2).1,
       (runChecks limit W label ts2 (runChecks limit W label ts1 w).2).2) := by
  induction ts1 generalizing w with
  | nil => simp [runChecks]
  | cons t ts ih => simp [runChecks, ih]

/-- After exactly `limit` fresh recorded calls, the next call within the
window is rejected with the count/limit message and records nothing. -/
theorem runChecks_limit_exceeded (limit : Nat) (W : ℚ) (label : String)
    (ts : List ℚ) (tf : ℚ) (hlen : ts.length = limit)
    (hts : ∀ t ∈ ts, tf - W ≤ t ∧ t ≤ tf) :
    runChecks limit W label (ts ++ [tf]) [] =
      (ts.map (fun _ => (true, "Rate limit OK")) ++
        [(false, limitMsg limit limit label)], ts) := by
  have h1 := runChecks_all_ok limit W label tf ts [] (by simp [hlen]) (by simp) hts
  rw [runChecks_append, h1]
  unfold runChecks checkAndRecord
  rw [pruneWindow_eq_self _ _ (by simpa using fun x hx => (hts x hx).1)]
  simp [runChecks, hlen]

/-- C2: for every category with limit L and window duration W (the
price-report and review categories of the service), starting from an
empty window the first L calls within W are all allowed and the (L+1)-th
call within the same window is rejected with the count/limit message. -/
theorem C2_rate_limit_window :
    (∀ (cfg : Config) (ts : List ℚ) (tf : ℚ),
      ts.length = cfg.price_reports_per_hour →
      (∀ t ∈ ts, tf - 3600 ≤ t ∧ t ≤ tf) →
      runChecks cfg.price_reports_per_hour 3600 "reportes por hora" (ts ++ [tf]) [] =
        (ts.map (fun _ => (true, "Rate limit OK")) ++
          [(false, limitMsg cfg.price_reports_per_hour cfg.price_reports_per_hour
              "reportes por hora")], ts))
    ∧ (∀ (cfg : Config) (ts : List ℚ) (tf : ℚ),
      ts.length = cfg.reviews_per_day →
      (∀ t ∈ ts, tf - 86400 ≤ t ∧ t ≤ tf) →
      runChecks cfg.reviews_per_day 86400 "reseñas por día" (ts ++ [tf]) [] =
        (ts.map (fun _ => (true, "Rate limit OK")) ++
          [(false, limitMsg cfg.reviews_per_day cfg.reviews_per_day
              "reseñas por día")], ts)) :=
  ⟨fun cfg ts tf hlen hts => runChecks_limit_exceeded _ _ _ ts tf hlen hts,
   fun cfg ts tf hlen hts => runChecks_limit_exceeded _ _ _ ts tf hlen hts⟩

/-- Witness for C2: limit 3 per hour, three calls at 0, 1, 2 allowed, a
fourth at 10 rejected with the 3/3 message. -/
theorem C2_rate_limit_window_witness :
    runChecks defaultSettings.price_reports_per_hour 3600 "reportes por hora"
      ([0, 1, 2] ++ [10]) [] =
      ([(true, "Rate limit OK"), (true, "Rate limit OK"), (true, "Rate limit OK"),
        (false, limitMsg 3 3 "reportes por hora")], [0, 1, 2]) := by
  have h := C2_rate_limit_window.1 defaultSettings [0, 1, 2] 10 (by decide)
    (by intro t ht; fin_cases ht <;> norm_num)
  simpa [defaultSettings] using h

/-- C1: with at least `min_samples_for_validation` fresh validated
samples fetched, `validate_price_dynamically` accepts the reported price
iff it lies in `[mean*(1-tolerance), mean*(1+tolerance)]`, both bounds
inclusive; with samples `[10,10,10,10,10]` and tolerance 15% the band is
`[8.5, 11.5]`, price 11.4 is accepted and price 12.0 is rejected. -/
theorem C1_market_band_iff_mean_tolerance
    (cfg : Config) (db : List GasPriceRow) (now : ℚ) (fuel_type : String)
    (price : ℚ) (region : Option String)
    (hlen : cfg.min_samples_for_validation ≤
      (queryPrices db fuel_type (now - cfg.price_data_freshness_days * 86400) region).length)
    (hne : queryPrices db fuel_type (now - cfg.price_data_freshness_days * 86400) region ≠ []) :
    ((validate_price_dynamically cfg db now fuel_type price region).1 = true ↔
      ((queryPrices db fuel_type (now - cfg.price_data_freshness_days * 86400) region).sum /
          ((queryPrices db fuel_type (now - cfg.price_data_freshness_days * 86400) region).length : ℚ) *
          (1 - cfg.price_tolerance_percent / 100) ≤ price ∧
        price ≤
          (queryPrices db fuel_type (now - cfg.price_data_freshness_days * 86400) region).sum /
            ((queryPrices db fuel_type (now - cfg.price_data_freshness_days * 86400) region).length : ℚ) *
            (1 + cfg.price_tolerance_percent / 100)))
    ∧ (validate_price_dynamically defaultSettings dbMagna5 0 "magna" (57/5) none).1 = true
    ∧ (validate_price_dynamically defaultSettings dbMagna5 0 "magna" 12 none).1 = false
    ∧ diagGet (validate_price_dynamically defaultSettings dbMagna5 0 "magna" (57/5) none).2.2
        "valid_range" = some (.range (17/2) (23/2)) := by
  have hq : queryPrices dbMagna5 "magna" ((-2592000 : ℚ)) none = [10, 10, 10, 10, 10] := by
    have hl : lowerStr "magna" = "magna" := by decide
    norm_num [queryPrices, dbMagna5, List.filter, hl]
  refine ⟨?_, ?_, ?_, ?_⟩
  · unfold validate_price_dynamically
    rw [if_neg (Nat.not_lt.mpr hlen), if_neg hne]
    simp only [Bool.and_eq_true, decide_eq_true_eq]
    split <;> simp_all
  all_goals have hq5 : ([10, 10, 10, 10, 10] : List ℚ) ≠ [] := by simp
  · norm_num [validate_price_dynamically, hq, hq5, defaultSettings, List.sum_cons, List.sum_nil]
  · norm_num [validate_price_dynamically, hq, hq5, defaultSettings, List.sum_cons, List.sum_nil]
  · norm_num [validate_price_dynamically, hq, hq5, defaultSettings, List.sum_cons, List.sum_nil,
      diagGet, round2, List.find?, round_eq]
    exact ⟨"valid_range", rfl⟩

/-- Witness for C1 at the spec §8 example: five samples at 10, price
11.4 accepted, price 12 rejected. -/
theorem C1_market_band_iff_mean_tolerance_witness :
    (validate_price_dynamically defaultSettings dbMagna5 0 "magna" (57/5) none).1 = true ∧
    (validate_price_dynamically defaultSettings dbMagna5 0 "magna" 12 none).1 = false := by
  have hl : lowerStr "magna" = "magna" := by decide
  have h := C1_market_band_iff_mean_tolerance defaultSettings dbMagna5 0 "magna" (57/5) none
    (by norm_num [queryPrices, dbMagna5, List.filter, hl, defaultSettings])
    (by norm_num [queryPrices, dbMagna5, List.filter, hl, defaultSettings]; simp)
  exact ⟨h.2.1, h.2.2.1⟩

/-- C9: price validation keys both the market query and the fallback
lookup on the lowercased fuel type, so it is case-insensitive in the
fuel type: validating for `fuel_type` equals validating for
`lowerStr fuel_type`, for every database, price and region. -/
theorem C9_fuel_type_case_insensitive (cfg : Config) (db : List GasPriceRow)
    (now : ℚ) (fuel_type : String) (price : ℚ) (region : Option String) :
    validate_price_dynamically cfg db now fuel_type price region =
      validate_price_dynamically cfg db now (lowerStr fuel_type) price region := by
  unfold validate_price_dynamically validate_with_fallback queryPrices
  rw [lowerStr_idem]

/-- C3: with fewer fresh validated samples than the configured minimum,
validation is the static fallback lookup keyed on the fuel type: no
configured range accepts any price, a configured range accepts iff
`min ≤ price ≤ max`; with 3 samples of any values and the magna range
`[15, 35]`, price 16 is accepted and price 40 rejected. -/
theorem C3_fallback_static_range (cfg : Config) (db : List GasPriceRow)
    (now : ℚ) (fuel_type : String) (price : ℚ) (region : Option String)
    (hlen : (queryPrices db fuel_type (now - cfg.price_data_freshness_days * 86400) region).length <
      cfg.min_samples_for_validation) :
    validate_price_dynamically cfg db now fuel_type price region =
      validate_with_fallback cfg fuel_type price
    ∧ (lookupRange cfg.fallback_price_ranges (lowerStr fuel_type) = none →
        validate_with_fallback cfg fuel_type price =
          (true, "No hay límites definidos para este combustible", []))
    ∧ (∀ mn mx, lookupRange cfg.fallback_price_ranges (lowerStr fuel_type) = some (mn, mx) →
        ((validate_with_fallback cfg fuel_type price).1 = true ↔ (mn ≤ price ∧ price ≤ mx)))
    ∧ (∀ p1 p2 p3 : ℚ,
        (validate_price_dynamically defaultSettings (dbMagna3 p1 p2 p3) 0 "magna" 16 none).1 = true ∧
        (validate_price_dynamically defaultSettings (dbMagna3 p1 p2 p3) 0 "magna" 40 none).1 = false) := by
  refine ⟨?_, ?_, ?_, ?_⟩
  · unfold validate_price_dynamically
    rw [if_pos hlen]
  · intro h
    unfold validate_with_fallback
    rw [h]
  · intro mn mx h
    unfold validate_with_fallback
    rw [h]
    simp only [Bool.and_eq_true, decide_eq_true_eq]
    split <;> simp_all
  · intro p1 p2 p3
    have hl : lowerStr "magna" = "magna" := by decide
    constructor <;>
      norm_num [validate_price_dynamically, validate_with_fallback, queryPrices, dbMagna3,
        List.filter, hl, defaultSettings, lookupRange, List.find?]

/-- Witness for C3 at the spec §8 example: three samples of arbitrary
values (here 100, 200, 300), magna fallback range [15, 35], price 16
accepted and price 40 rejected. -/
theorem C3_fallback_static_range_witness :
    (validate_price_dynamically defaultSettings (dbMagna3 100 200 300) 0 "magna" 16 none).1 = true ∧
    (validate_price_dynamically defaultSettings (dbMagna3 100 200 300) 0 "magna" 40 none).1 = false := by
  have hl : lowerStr "magna" = "magna" := by decide
  have h := C3_fallback_static_range defaultSettings (dbMagna3 100 200 300) 0 "magna" 16 none
    (by norm_num [queryPrices, dbMagna3, List.filter, hl, defaultSettings])
  exact h.2.2.2 100 200 300

/-- Pruning never lengthens a window. -/
theorem pruneWindow_length_le (c : ℚ) : ∀ w : List ℚ,
    (pruneWindow c w).length ≤ w.length
  | [] => le_refl _
  | a :: w' => by
    unfold pruneWindow
    split
    · exact le_trans (pruneWindow_length_le c w') (Nat.le_succ _)
    · exact le_refl _

/-- A pruned window of unchanged length is unchanged. -/
theorem pruneWindow_eq_of_length (c : ℚ) : ∀ w : List ℚ,
    (pruneWindow c w).length = w.length → pruneWindow c w = w
  | [] => fun _ => rfl
  | a :: w' => by
    unfold pruneWindow
    split
    · intro hl
      exfalso
      have := pruneWindow_length_le c w'
      simp only [List.length_cons] at hl
      omega
    · intro _
      rfl

/-- A pruned window with a timestamp at or above the cutoff appended
never equals the original window. -/
theorem pruneWindow_append_ne (c t : ℚ) (hct : c ≤ t) :
    ∀ w : List ℚ, pruneWindow c w ++ [t] ≠ w
  | [] => by simp [pruneWindow]
  | a :: w' => by
    unfold pruneWindow
    by_cases ha : a < c
    · rw [if_pos ha]
      intro heq
      have hlen := congrArg List.length heq
      simp only [List.length_append, List.length_cons, List.length_nil] at hlen
      have hpr := pruneWindow_eq_of_length c w' (by omega)
      rw [hpr] at heq
      have hsum := congrArg List.sum heq
      simp only [List.sum_append, List.sum_cons, List.sum_nil] at hsum
      have : t = a := by linarith
      linarith
    · rw [if_neg ha]
      intro heq
      have hlen := congrArg List.length heq
      simp only [List.length_append, List.length_cons, List.length_nil] at hlen
      omega

/-- The state returned by the price-report pipeline: untouched when
attestation rejects, otherwise exactly the rate-limit gate's output
state, whatever the later gates decide. -/
theorem validate_price_report_state (cfg : Config) (db : List GasPriceRow)
    (now : ℚ) (net : NetResult) (form : PriceForm) (ip : String) (st : ProtState) :
    (validate_price_report cfg db now net form ip st).2 =
      if (verify_recaptcha cfg.recaptcha_secret_key form.g_recaptcha_response net).1 then
        (check_price_report_rate_limit cfg now st ip).2.2
      else st := by
  unfold validate_price_report
  cases hv : (verify_recaptcha cfg.recaptcha_secret_key form.g_recaptcha_response net).1
  · simp [hv]
  · cases hp : parsePrice form.reported_price <;>
      simp only [hv, hp, Bool.not_true, Bool.false_eq_true, if_false, if_true, reduceIte] <;>
      (try split) <;> (try split) <;> rfl

/-- The rate-limit gate's output state holds, at the checked identity,
exactly the window computed by `checkAndRecord`. -/
theorem check_price_state_at_ip (cfg : Config) (now : ℚ) (st : ProtState) (ip : String) :
    (check_price_report_rate_limit cfg now st ip).2.2.price_reports ip =
      (checkAndRecord cfg.price_reports_per_hour 3600 "reportes por hora" now
        (st.price_reports ip)).2.2 := by
  simp [check_price_report_rate_limit]

/-- C4 (amended): a price-report submission appends a rate-limit window
entry iff it passes both the attestation gate and the rate-limit gate; a
submission rejected at attestation leaves the window untouched, and once
attestation passes the resulting window is exactly the rate-limit
gate's output (so a submission rejected at the later price gate has
already appended its entry). -/
theorem C4_slot_consumed_iff_attestation_and_rate (cfg : Config)
    (db : List GasPriceRow) (now : ℚ) (net : NetResult) (form : PriceForm)
    (ip : String) (st : ProtState) :
    ((verify_recaptcha cfg.recaptcha_secret_key form.g_recaptcha_response net).1 = false →
      (validate_price_report cfg db now net form ip st).2.price_reports ip =
        st.price_reports ip)
    ∧ ((verify_recaptcha cfg.recaptcha_secret_key form.g_recaptcha_response net).1 = true →
      (validate_price_report cfg db now net form ip st).2.price_reports ip =
        (checkAndRecord cfg.price_reports_per_hour 3600 "reportes por hora" now
          (st.price_reports ip)).2.2)
    ∧ ((validate_price_report cfg db now net form ip st).2.price_reports ip =
        pruneWindow (now - 3600) (st.price_reports ip) ++ [now] ↔
      ((verify_recaptcha cfg.recaptcha_secret_key form.g_recaptcha_response net).1 = true ∧
        (checkAndRecord cfg.price_reports_per_hour 3600 "reportes por hora" now
          (st.price_reports ip)).1 = true)) := by
  have hstate := validate_price_report_state cfg db now net form ip st
  have hbranch : (verify_recaptcha cfg.recaptcha_secret_key form.g_recaptcha_response net).1 = true →
      (validate_price_report cfg db now net form ip st).2.price_reports ip =
        (checkAndRecord cfg.price_reports_per_hour 3600 "reportes por hora" now
          (st.price_reports ip)).2.2 := by
    intro hv
    rw [hstate, if_pos hv, check_price_state_at_ip]
  refine ⟨?_, hbranch, ?_⟩
  · intro hv
    rw [hstate]
    simp [hv]
  · by_cases hv : (verify_recaptcha cfg.recaptcha_secret_key form.g_recaptcha_response net).1 = true
    · rw [hbranch hv]
      unfold checkAndRecord
      by_cases hr : cfg.price_reports_per_hour ≤
          (pruneWindow (now - 3600) (st.price_reports ip)).length
      · simp only [if_pos hr]
        constructor
        · intro h
          exfalso
          have := congrArg List.length h
          simp at this
        · intro h
          exact absurd h.2 (by simp)
      · simp only [if_neg hr]
        simp [hv]
    · have hv' : (verify_recaptcha cfg.recaptcha_secret_key form.g_recaptcha_response net).1 = false := by
        simpa using hv
      have hw : (validate_price_report cfg db now net form ip st).2.price_reports ip =
          st.price_reports ip := by
        rw [hstate]
        simp [hv']
      rw [hw]
      constructor
      · intro h
        exact absurd h.symm (pruneWindow_append_ne (now - 3600) now (by linarith) _)
      · intro h
        exact absurd h.1 hv

/-- Witness for C4: a submission with no token is rejected at
attestation and the identity's full window stays unchanged. -/
theorem C4_slot_consumed_iff_attestation_and_rate_witness :
    (validate_price_report defaultSettings [] 10 .err formNoToken "1.2.3.4"
      fullState).2.price_reports "1.2.3.4" = fullState.price_reports "1.2.3.4" :=
  (C4_slot_consumed_iff_attestation_and_rate defaultSettings [] 10 .err formNoToken
    "1.2.3.4" fullState).1 rfl

/-- Counterexample to C4 as stated: with the attestation secret unset, a
submission with a non-empty token against a full window passes the
attestation gate, yet no rate-limit window entry is consumed — the
window is unchanged — because the rate-limit gate itself rejects. -/
theorem C4_counterexample :
    (verify_recaptcha defaultSettings.recaptcha_secret_key
      (formTok (.value 20)).g_recaptcha_response .err).1 = true
    ∧ (validate_price_report defaultSettings [] 10 .err (formTok (.value 20))
        "1.2.3.4" fullState).2.price_reports "1.2.3.4" =
      fullState.price_reports "1.2.3.4" := by
  constructor
  · rfl
  · rw [validate_price_report_state]
    have hv : (verify_recaptcha defaultSettings.recaptcha_secret_key
        (formTok (FormNum.value 20)).g_recaptcha_response NetResult.err).1 = true := rfl
    rw [if_pos hv, check_price_state_at_ip]
    unfold checkAndRecord fullState
    norm_num [pruneWindow, defaultSettings]

/-- C5 (amended): both pipelines evaluate attestation, then rate limit,
then the content-specific check, stopping at the first rejection (the
returned decision and state do not depend on later gates), and the
rejection reason is the failing gate's message prefixed with a fixed
stage label ("CAPTCHA: ", "Rate limit: ", "Precio: ") for the
attestation, rate-limit and price gates, while the review content-check
messages are returned verbatim. -/
theorem C5_gate_order_fail_fast :
    (∀ (cfg : Config) (db : List GasPriceRow) (now : ℚ) (net : NetResult)
        (form : PriceForm) (ip : String) (st : ProtState),
      ((verify_recaptcha cfg.recaptcha_secret_key form.g_recaptcha_response net).1 = false →
        validate_price_report cfg db now net form ip st =
          ((false, "CAPTCHA: " ++
            (verify_recaptcha cfg.recaptcha_secret_key form.g_recaptcha_response net).2.1), st))
      ∧ ((verify_recaptcha cfg.recaptcha_secret_key form.g_recaptcha_response net).1 = true →
          (check_price_report_rate_limit cfg now st ip).1 = false →
          validate_price_report cfg db now net form ip st =
            ((false, "Rate limit: " ++ (check_price_report_rate_limit cfg now st ip).2.1),
              (check_price_report_rate_limit cfg now st ip).2.2))
      ∧ (∀ price : ℚ,
          (verify_recaptcha cfg.recaptcha_secret_key form.g_recaptcha_response net).1 = true →
          (check_price_report_rate_limit cfg now st ip).1 = true →
          parsePrice form.reported_price = some price →
          (validate_price_dynamically cfg db now (form.fuel_type.getD "") price none).1 = false →
          validate_price_report cfg db now net form ip st =
            ((false, "Precio: " ++
              (validate_price_dynamically cfg db now (form.fuel_type.getD "") price none).2.1),
              (check_price_report_rate_limit cfg now st ip).2.2)))
    ∧ (∀ (cfg : Config) (now : ℚ) (net : NetResult) (form : ReviewForm)
        (ip : String) (st : ProtState),
      ((verify_recaptcha cfg.recaptcha_secret_key form.g_recaptcha_response net).1 = false →
        validate_review cfg now net form ip st =
          ((false, "CAPTCHA: " ++
            (verify_recaptcha cfg.recaptcha_secret_key form.g_recaptcha_response net).2.1), st))
      ∧ ((verify_recaptcha cfg.recaptcha_secret_key form.g_recaptcha_response net).1 = true →
          (check_review_rate_limit cfg now st ip).1 = false →
          validate_review cfg now net form ip st =
            ((false, "Rate limit: " ++ (check_review_rate_limit cfg now st ip).2.1),
              (check_review_rate_limit cfg now st ip).2.2))
      ∧ ((verify_recaptcha cfg.recaptcha_secret_key form.g_recaptcha_response net).1 = true →
          (check_review_rate_limit cfg now st ip).1 = true →
          form.name.trim.length < 2 →
          validate_review cfg now net form ip st =
            ((false, "Nombre muy corto (mínimo 2 caracteres)"),
              (check_review_rate_limit cfg now st ip).2.2))
      ∧ ((verify_recaptcha cfg.recaptcha_secret_key form.g_recaptcha_response net).1 = true →
          (check_review_rate_limit cfg now st ip).1 = true →
          ¬ form.name.trim.length < 2 → form.comment.trim.length < 10 →
          validate_review cfg now net form ip st =
            ((false, "Comentario muy corto (mínimo 10 caracteres)"),
              (check_review_rate_limit cfg now st ip).2.2))
      ∧ ((verify_recaptcha cfg.recaptcha_secret_key form.g_recaptcha_response net).1 = true →
          (check_review_rate_limit cfg now st ip).1 = true →
          ¬ form.name.trim.length < 2 → ¬ form.comment.trim.length < 10 →
          form.rating = none →
          validate_review cfg now net form ip st =
            ((false, "Calificación inválida"), (check_review_rate_limit cfg now st ip).2.2))
      ∧ (∀ n : ℤ,
          (verify_recaptcha cfg.recaptcha_secret_key form.g_recaptcha_response net).1 = true →
          (check_review_rate_limit cfg now st ip).1 = true →
          ¬ form.name.trim.length < 2 → ¬ form.comment.trim.length < 10 →
          form.rating = some n → ¬ (1 ≤ n ∧ n ≤ 5) →
          validate_review cfg now net form ip st =
            ((false, "Calificación debe estar entre 1 y 5"),
              (check_review_rate_limit cfg now st ip).2.2))) := by
  constructor
  · intro cfg db now net form ip st
    refine ⟨?_, ?_, ?_⟩
    · intro hv
      simp [validate_price_report, hv]
    · intro hv hr
      simp [validate_price_report, hv, hr]
    · intro price hv hr hp hpv
      simp [validate_price_report, hv, hr, hp, hpv]
  · intro cfg now net form ip st
    refine ⟨?_, ?_, ?_, ?_, ?_, ?_⟩
    · intro hv
      simp [validate_review, hv]
    · intro hv hr
      simp [validate_review, hv, hr]
    · intro hv hr hn
      simp [validate_review, hv, hr, hn]
    · intro hv hr hn hc
      simp [validate_review, hv, hr, hn, hc]
    · intro hv hr hn hc hrt
      simp [validate_review, hv, hr, hn, hc, hrt]
    · intro n hv hr hn hc hrt hrange
      simp [validate_review, hv, hr, hn, hc, hrt, hrange]

/-- Witness for C5: a review submission with no token is rejected with
the attestation gate's message behind the "CAPTCHA: " stage label and an
untouched state. -/
theorem C5_gate_order_fail_fast_witness :
    validate_review defaultSettings 0 .err reviewNoToken "1.2.3.4" emptyState =
      ((false, "CAPTCHA: Token CAPTCHA requerido"), emptyState) :=
  (C5_gate_order_fail_fast.2 defaultSettings 0 .err reviewNoToken "1.2.3.4"
    emptyState).1 rfl

/-- Counterexample to C5 as stated: the pipeline's reason for a
rejection at attestation is "CAPTCHA: Token CAPTCHA requerido", which is
not the failing gate's message "Token CAPTCHA requerido" verbatim. -/
theorem C5_counterexample :
    validate_price_report defaultSettings [] 0 .err formNoToken "1.2.3.4" emptyState =
      ((false, "CAPTCHA: Token CAPTCHA requerido"), emptyState)
    ∧ (verify_recaptcha defaultSettings.recaptcha_secret_key
        formNoToken.g_recaptcha_response .err).2.1 = "Token CAPTCHA requerido"
    ∧ "CAPTCHA: Token CAPTCHA requerido" ≠ "Token CAPTCHA requerido" := by
  refine ⟨rfl, rfl, by decide⟩

/-- C7: an empty or missing attestation token is rejected immediately
with no call to the external service, for every secret, network
behaviour, identity, rate-limit state and price data; the pipeline then
rejects with the prefixed token message and an untouched state. -/
theorem C7_empty_token_rejected_no_network (secret : String)
    (token : Option String) (net : NetResult) (cfg : Config)
    (db : List GasPriceRow) (now : ℚ) (form : PriceForm) (ip : String)
    (st : ProtState) (h : tokenMissing token = true)
    (hf : tokenMissing form.g_recaptcha_response = true) :
    verify_recaptcha secret token net = (false, "Token CAPTCHA requerido", false)
    ∧ validate_price_report cfg db now net form ip st =
        ((false, "CAPTCHA: Token CAPTCHA requerido"), st) := by
  constructor
  · simp [verify_recaptcha, h]
  · simp [validate_price_report, verify_recaptcha, hf]

/-- Witness for C7: a missing token is rejected without network use even
with a configured secret, and the pipeline rejects leaving a full window
untouched. -/
theorem C7_empty_token_rejected_no_network_witness :
    verify_recaptcha "secret123" none .err = (false, "Token CAPTCHA requerido", false)
    ∧ validate_price_report defaultSettings [] 5 .err formNoToken "9.9.9.9" fullState =
        ((false, "CAPTCHA: Token CAPTCHA requerido"), fullState) :=
  C7_empty_token_rejected_no_network "secret123" none .err defaultSettings [] 5
    formNoToken "9.9.9.9" fullState rfl rfl

/-- C8: with the attestation secret unconfigured (empty), any non-empty
token verifies as valid with no call to the external service, and the
pipeline proceeds to the rate-limit gate: its resulting state is exactly
the rate-limit gate's output state. -/
theorem C8_secret_unconfigured_bypass (token : Option String)
    (net : NetResult) (cfg : Config) (db : List GasPriceRow) (now : ℚ)
    (form : PriceForm) (ip : String) (st : ProtState)
    (hsec : cfg.recaptcha_secret_key = "")
    (ht : tokenMissing token = false)
    (hf : tokenMissing form.g_recaptcha_response = false) :
    verify_recaptcha cfg.recaptcha_secret_key token net =
      (true, "Bypassed in development", false)
    ∧ (validate_price_report cfg db now net form ip st).2 =
        (check_price_report_rate_limit cfg now st ip).2.2 := by
  constructor
  · simp [verify_recaptcha, ht, hsec]
  · have hvv : (verify_recaptcha cfg.recaptcha_secret_key form.g_recaptcha_response net).1 = true := by
      simp [verify_recaptcha, hf, hsec]
    rw [validate_price_report_state, if_pos hvv]

/-- Witness for C8: default settings (secret empty), token "x": bypass
accepted without network use and the pipeline's state is the rate
gate's output. -/
theorem C8_secret_unconfigured_bypass_witness :
    verify_recaptcha defaultSettings.recaptcha_secret_key (some "x") .err =
      (true, "Bypassed in development", false)
    ∧ (validate_price_report defaultSettings [] 5 .err (formTok (.value 20))
        "1.2.3.4" emptyState).2 =
      (check_price_report_rate_limit defaultSettings 5 emptyState "1.2.3.4").2.2 :=
  C8_secret_unconfigured_bypass (some "x") .err defaultSettings [] 5
    (formTok (.value 20)) "1.2.3.4" emptyState rfl rfl rfl

/-- A price-gate rejection reason never equals the literal invalid-price
message. -/
theorem precio_msg_ne (s : String) : "Precio: " ++ s ≠ "Precio inválido" := by
  intro h
  have h2 : ("Precio: " ++ s).data = ("Precio inválido").data := by rw [h]
  simp [String.data] at h2

/-- C10: once the attestation and rate-limit gates pass, the pipeline
returns the "Precio inválido" rejection iff the reported_price field is
present but not convertible; an absent field is not rejected as invalid
but defaults to price 0 and continues to the price-validation gate, the
rate-limit window having already gained the entry for this call. -/
theorem C10_invalid_price_iff_unconvertible (cfg : Config)
    (db : List GasPriceRow) (now : ℚ) (net : NetResult) (form : PriceForm)
    (ip : String) (st : ProtState)
    (hv : (verify_recaptcha cfg.recaptcha_secret_key form.g_recaptcha_response net).1 = true)
    (hr : (check_price_report_rate_limit cfg now st ip).1 = true) :
    ((validate_price_report cfg db now net form ip st).1.2 = "Precio inválido" ↔
      form.reported_price = .invalid)
    ∧ (form.reported_price = .missing →
        validate_price_report cfg db now net form ip st =
          (if (validate_price_dynamically cfg db now (form.fuel_type.getD "") 0 none).1 then
            ((true, "Todas las validaciones pasaron"),
              (check_price_report_rate_limit cfg now st ip).2.2)
           else
            ((false, "Precio: " ++
                (validate_price_dynamically cfg db now (form.fuel_type.getD "") 0 none).2.1),
              (check_price_report_rate_limit cfg now st ip).2.2)))
    ∧ (check_price_report_rate_limit cfg now st ip).2.2.price_reports ip =
        pruneWindow (now - 3600) (st.price_reports ip) ++ [now] := by
  have hresult : ∀ q, parsePrice form.reported_price = some q →
      (validate_price_report cfg db now net form ip st).1.2 =
          "Todas las validaciones pasaron" ∨
        ∃ m, (validate_price_report cfg db now net form ip st).1.2 = "Precio: " ++ m := by
    intro q hq
    simp only [validate_price_report, hv, hr, hq, Bool.not_true, Bool.false_eq_true,
      if_false, if_true, reduceIte]
    split
    · exact Or.inr ⟨_, rfl⟩
    · exact Or.inl rfl
  refine ⟨⟨?_, ?_⟩, ?_, ?_⟩
  · intro h
    cases hfp : form.reported_price with
    | missing =>
      exfalso
      rcases hresult 0 (by simp [parsePrice, hfp]) with h1 | ⟨m, h1⟩
      · rw [h1] at h
        exact absurd h (by decide)
      · rw [h1] at h
        exact precio_msg_ne m h
    | invalid => rfl
    | value q =>
      exfalso
      rcases hresult q (by simp [parsePrice, hfp]) with h1 | ⟨m, h1⟩
      · rw [h1] at h
        exact absurd h (by decide)
      · rw [h1] at h
        exact precio_msg_ne m h
  · intro h
    simp [validate_price_report, hv, hr, h, parsePrice]
  · intro hm
    have hp0 : parsePrice form.reported_price = some 0 := by simp [parsePrice, hm]
    simp only [validate_price_report, hv, hr, hp0, Bool.not_true, Bool.false_eq_true,
      if_false, if_true, reduceIte]
    cases hp1 : (validate_price_dynamically cfg db now (form.fuel_type.getD "") 0 none).1 <;>
      simp [hp1]
  · unfold check_price_report_rate_limit checkAndRecord at hr ⊢
    by_cases hc : cfg.price_reports_per_hour ≤
        (pruneWindow (now - 3600) (st.price_reports ip)).length
    · simp [if_pos hc] at hr
    · simp [if_neg hc]

/-- Witness for C10: with attestation bypassed and an empty window, an
unconvertible reported_price field yields exactly the invalid-price
rejection. -/
theorem C10_invalid_price_iff_unconvertible_witness :
    (validate_price_report defaultSettings [] 0 .err (formTok .invalid)
      "1.2.3.4" emptyState).1.2 = "Precio inválido" :=
  (C10_invalid_price_iff_unconvertible defaultSettings [] 0 .err (formTok .invalid)
    "1.2.3.4" emptyState rfl rfl).1.mpr rfl

/-- C6 (amended): market-path diagnostics report the rounded band, the
sample count and the market average; fallback-path diagnostics report
the fallback band and fallback basis flag but no sample count; the
unknown-fuel-type path returns empty diagnostics. -/
theorem C6_diagnostics_fields (cfg : Config) (db : List GasPriceRow)
    (now : ℚ) (fuel_type : String) (price : ℚ) (region : Option String) :
    (cfg.min_samples_for_validation ≤
        (queryPrices db fuel_type (now - cfg.price_data_freshness_days * 86400) region).length →
      queryPrices db fuel_type (now - cfg.price_data_freshness_days * 86400) region ≠ [] →
      diagGet (validate_price_dynamically cfg db now fuel_type price region).2.2 "valid_range" =
          some (.range
            (round2 ((queryPrices db fuel_type (now - cfg.price_data_freshness_days * 86400) region).sum /
              ((queryPrices db fuel_type (now - cfg.price_data_freshness_days * 86400) region).length : ℚ) *
              (1 - cfg.price_tolerance_percent / 100)))
            (round2 ((queryPrices db fuel_type (now - cfg.price_data_freshness_days * 86400) region).sum /
              ((queryPrices db fuel_type (now - cfg.price_data_freshness_days * 86400) region).length : ℚ) *
              (1 + cfg.price_tolerance_percent / 100))))
        ∧ diagGet (validate_price_dynamically cfg db now fuel_type price region).2.2 "samples_count" =
          some (.num ((queryPrices db fuel_type (now - cfg.price_data_freshness_days * 86400) region).length : ℚ))
        ∧ diagGet (validate_price_dynamically cfg db now fuel_type price region).2.2 "market_average" =
          some (.num (round2 ((queryPrices db fuel_type (now - cfg.price_data_freshness_days * 86400) region).sum /
            ((queryPrices db fuel_type (now - cfg.price_data_freshness_days * 86400) region).length : ℚ)))))
    ∧ ((queryPrices db fuel_type (now - cfg.price_data_freshness_days * 86400) region).length <
        cfg.min_samples_for_validation →
      (∀ mn mx, lookupRange cfg.fallback_price_ranges (lowerStr fuel_type) = some (mn, mx) →
        diagGet (validate_price_dynamically cfg db now fuel_type price region).2.2 "valid_range" =
            some (.range mn mx)
          ∧ diagGet (validate_price_dynamically cfg db now fuel_type price region).2.2 "fallback_mode" =
            some (.flag true)
          ∧ diagGet (validate_price_dynamically cfg db now fuel_type price region).2.2 "samples_count" =
            none)
      ∧ (lookupRange cfg.fallback_price_ranges (lowerStr fuel_type) = none →
          (validate_price_dynamically cfg db now fuel_type price region).2.2 = [])) := by
  constructor
  · intro hlen hne
    unfold validate_price_dynamically
    rw [if_neg (Nat.not_lt.mpr hlen), if_neg hne]
    dsimp only
    split <;> simp [diagGet, List.find?]
  · intro hlt
    constructor
    · intro mn mx hlk
      unfold validate_price_dynamically
      rw [if_pos hlt]
      unfold validate_with_fallback
      rw [hlk]
      dsimp only
      split <;> simp [diagGet, List.find?]
    · intro hlk
      unfold validate_price_dynamically
      rw [if_pos hlt]
      unfold validate_with_fallback
      rw [hlk]

/-- Witness for C6: for an unknown fuel type with no data the validator
returns empty diagnostics (the unknown-fuel-type arm of the amended
statement). -/
theorem C6_diagnostics_fields_witness :
    (validate_price_dynamically defaultSettings [] 0 "xyz" 20 none).2.2 = [] :=
  (C6_diagnostics_fields defaultSettings [] 0 "xyz" 20 none).2 (by decide) |>.2 rfl

/-- Counterexample to C6 as stated: the unknown-fuel-type invocation
returns empty diagnostics — no bounds, basis or sample count — and the
fallback-range invocation's diagnostics carry no sample count. -/
theorem C6_counterexample :
    validate_price_dynamically defaultSettings [] 0 "xyz" 20 none =
      (true, "No hay límites definidos para este combustible", [])
    ∧ diagGet (validate_price_dynamically defaultSettings [] 0 "magna" 16 none).2.2
        "samples_count" = none := by
  constructor
  · rfl
  · have hl : lowerStr "magna" = "magna" := by decide
    norm_num [validate_price_dynamically, validate_with_fallback, queryPrices,
      defaultSettings, lookupRange, List.find?, diagGet, hl]
    rfl

end Gasoradar
